import Mathlib

/-!
# JavaUtilities.cpp : exception raising and string marshalling across JNI

Shallow embedding of `src/artemis-native/src/main/c/JavaUtilities.cpp`.

The three functions of the file talk to the Java virtual machine through a
`JNIEnv *`.  The virtual machine is external to the repository, so the
facilities the code consumes are fields of the structure `JNIEnv` below (a type
registry, a constructor registry, an instantiation facility, the string
encoding facility); the code is embedded over an arbitrary such environment.

Mutable state is passed explicitly in a `World`: the pending-exception slot of
the execution context, the text written to `std::cerr` so far, and an
observation log of the objects and resources the calls produced.
-/

namespace JavaUtilities

/-! ## Data model -/

/-- Class handle (`jclass`), identified by the fully-qualified name it was looked up by. -/
structure JClass where
  name : String
  deriving DecidableEq, Repr

/-- Method handle (`jmethodID`): the class, the method name and the JNI signature. -/
structure JMethodID where
  cls : JClass
  name : String
  sig : String
  deriving DecidableEq, Repr

/-- Argument passed to a Java constructor: a `jint`, or a `jstring` made by
`NewStringUTF` from the given C string. -/
inductive JValue where
  | int (v : Int)
  | text (utf : String)
  deriving DecidableEq, Repr

/-- Exception object (`jthrowable`).  `ofMessage` is an instance made by
`ThrowNew(cls, msg)`; `ofCtor` is an instance made by `NewObject(cls, ctor, args...)`. -/
inductive JThrowable where
  | ofMessage (cls : JClass) (msg : String)
  | ofCtor (cls : JClass) (ctor : JMethodID) (args : List JValue)
  deriving DecidableEq, Repr

/-- Managed string handle (`jstring`, never null): the UTF-16 code units of the Java string. -/
structure JString where
  units : List Nat
  deriving DecidableEq, Repr

/-- Entries of the observation log: an exception object instantiated; a string
view handed out by `GetStringUTFChars` (the string and the memory at the
returned pointer); a copy made into a `std::string`; a string view handed back
through `ReleaseStringUTFChars` (the string and the pointer passed). -/
inductive Event where
  | created (ex : JThrowable)
  | acquired (s : JString) (view : List Nat)
  | copied (len : Nat)
  | released (s : JString) (view : Option (List Nat))
  deriving DecidableEq, Repr

/-- Facilities of the Java virtual machine reached through `JNIEnv *`. -/
structure JNIEnv where
  /-- type registry: does `FindClass name` find the class -/
  classes : String → Bool
  /-- method registry: does `GetMethodID cls name sig` find the method -/
  methods : JClass → String → String → Bool
  /-- instantiation: does `NewObject cls ctor args` produce an object -/
  instantiates : JClass → JMethodID → List JValue → Bool
  /-- string encoding: the memory `GetStringUTFChars` returns a pointer to
  (the bytes from the pointer on), or `none` when it returns `NULL` -/
  utfChars : JString → Option (List Nat)

/-- Process state threaded through the calls. -/
structure World where
  /-- pending exception of the execution context -/
  pending : Option JThrowable
  /-- everything written to `std::cerr` so far -/
  cerr : String
  /-- observation log: objects instantiated, string views acquired and released, copies made -/
  log : List Event
  /-- largest `std::string` the native allocator can supply -/
  maxAlloc : Nat
  deriving DecidableEq, Repr

/-- Precondition violations of the library calls made by the code. -/
inductive Fault where
  /-- `ThrowNew` called with a `NULL` class -/
  | nullClass
  /-- `Throw` called with a `NULL` throwable -/
  | nullThrowable
  /-- `std::string` constructed from a `NULL` pointer -/
  | nullChars
  deriving DecidableEq, Repr

/-- How a call ends: it returns a value, it is left through a C++ exception
(`std::bad_alloc`), or it violates the precondition of a library call.  The
world is the state reached at that point. -/
inductive Outcome (α : Type) where
  | returned (a : α) (w : World)
  | thrown (w : World)
  | fault (f : Fault) (w : World)
  deriving DecidableEq, Repr

/-- State reached at the end of the call. -/
def Outcome.world {α : Type} : Outcome α → World
  | .returned _ w => w
  | .thrown w => w
  | .fault _ w => w

/-- Runtime type of an exception object. -/
def JThrowable.type : JThrowable → JClass
  | .ofMessage cls _ => cls
  | .ofCtor cls _ _ => cls

/-- Message an exception object carries: the message given to `ThrowNew`, or
the text argument given to the constructor. -/
def JThrowable.message : JThrowable → Option String
  | .ofMessage _ msg => some msg
  | .ofCtor _ _ args => args.findSome? fun a => match a with
      | .text s => some s
      | .int _ => none

/-- Integer code an exception object was constructed with, if any. -/
def JThrowable.code : JThrowable → Option Int
  | .ofMessage _ _ => none
  | .ofCtor _ _ args => args.findSome? fun a => match a with
      | .int v => some v
      | .text _ => none

/-! ## The JNI calls the code makes -/

/-- `env->FindClass(name)`: the class handle, or `NULL`. -/
def JNIEnv.FindClass (env : JNIEnv) (name : String) : Option JClass :=
  if env.classes name then some ⟨name⟩ else none

/-- `env->GetMethodID(cls, name, sig)`: the method handle, or `NULL`. -/
def JNIEnv.GetMethodID (env : JNIEnv) (cls : JClass) (name sig : String) : Option JMethodID :=
  if env.methods cls name sig then some ⟨cls, name, sig⟩ else none

/-- `env->NewStringUTF(bytes)`: a managed string holding the text of the C string. -/
def JNIEnv.NewStringUTF (_env : JNIEnv) (bytes : String) : JValue :=
  .text bytes

/-- `env->NewObject(cls, ctor, args...)`: a new instance, or `NULL`. -/
def JNIEnv.NewObject (env : JNIEnv) (cls : JClass) (ctor : JMethodID) (args : List JValue)
    (w : World) : Option JThrowable × World :=
  if env.instantiates cls ctor args then
    let ex := JThrowable.ofCtor cls ctor args
    (some ex, { w with log := w.log ++ [.created ex] })
  else
    (none, w)

/-- `env->Throw(obj)`: makes `obj` the pending exception; `obj` must not be `NULL`. -/
def JNIEnv.Throw (_env : JNIEnv) (obj : Option JThrowable) (w : World) : Outcome Unit :=
  match obj with
  | none => .fault .nullThrowable w
  | some ex => .returned () { w with pending := some ex }

/-- `env->ThrowNew(clazz, message)`: constructs an instance of `clazz` from the
message and makes it the pending exception; `clazz` must not be `NULL`. -/
def JNIEnv.ThrowNew (_env : JNIEnv) (clazz : Option JClass) (message : String) (w : World) :
    Outcome Unit :=
  match clazz with
  | none => .fault .nullClass w
  | some cls =>
    let ex := JThrowable.ofMessage cls message
    .returned () { w with pending := some ex, log := w.log ++ [.created ex] }

/-- `env->GetStringUTFChars(jstr, NULL)`: pointer to the encoded view, or `NULL`. -/
def JNIEnv.GetStringUTFChars (env : JNIEnv) (jstr : JString) (w : World) :
    Option (List Nat) × World :=
  match env.utfChars jstr with
  | none => (none, w)
  | some mem => (some mem, { w with log := w.log ++ [.acquired jstr mem] })

/-- `env->ReleaseStringUTFChars(jstr, chars)`: hands the view back to the runtime. -/
def JNIEnv.ReleaseStringUTFChars (_env : JNIEnv) (jstr : JString)
    (chars : Option (List Nat)) (w : World) : World :=
  { w with log := w.log ++ [.released jstr chars] }

/-- Characters of the C string at a pointer: the bytes before the first NUL. -/
def cstr (mem : List Nat) : List Nat :=
  mem.takeWhile (· ≠ 0)

/-- `std::string data(p)`: copies the C string at `p`.  A `NULL` pointer
violates the constructor's precondition; when the allocator cannot supply the
storage the constructor throws and nothing is returned. -/
def stdString (p : Option (List Nat)) (w : World) : Outcome (List Nat) :=
  match p with
  | none => .fault .nullChars w
  | some mem =>
    let s := cstr mem
    if s.length ≤ w.maxAlloc then
      .returned s { w with log := w.log ++ [.copied s.length] }
    else
      .thrown w

/-! ## The functions of JavaUtilities.cpp -/

/-- Name the generic-failure type is looked up by. -/
def runtimeExceptionName : String := "java/lang/RuntimeException"

/-- Name the domain exception type is looked up by. -/
def activeMQExceptionName : String := "org/apache/activemq/artemis/api/core/ActiveMQException"

/-- JNI signature of the (int, String) constructor. -/
def ctorSig : String := "(ILjava/lang/String;)V"

/-- Embedding of `void throwRuntimeException(JNIEnv * env, const char * message)`. -/
def throwRuntimeException (env : JNIEnv) (message : String) (w : World) : Outcome Unit :=
  let exceptionClass := env.FindClass runtimeExceptionName
  env.ThrowNew exceptionClass message w

/-- Embedding of `void throwException(JNIEnv * env, const int code, const char * message)`. -/
def throwException (env : JNIEnv) (code : Int) (message : String) (w : World) : Outcome Unit :=
  let exceptionClass := env.FindClass activeMQExceptionName
  match exceptionClass with
  | none =>
    let w1 := { w with cerr := w.cerr ++ "Couldn't throw exception message:= " ++ message ++ "\n" }
    throwRuntimeException env "Can't find Exception class" w1
  | some cls =>
    let ctor := env.GetMethodID cls "<init>" ctorSig
    match ctor with
    | none =>
      let w1 := { w with cerr := w.cerr ++ "Couldn't find the constructor ***" }
      throwRuntimeException env "Can't find Constructor for Exception" w1
    | some ctorId =>
      let strError := env.NewStringUTF message
      let (ex, w1) := env.NewObject cls ctorId [.int code, strError] w
      env.Throw ex w1

/-- Embedding of `std::string convertJavaString(JNIEnv * env, jstring& jstr)`. -/
def convertJavaString (env : JNIEnv) (jstr : JString) (w : World) : Outcome (List Nat) :=
  let (valueStr, w1) := env.GetStringUTFChars jstr w
  match stdString valueStr w1 with
  | .returned data w2 =>
    let w3 := env.ReleaseStringUTFChars jstr valueStr w2
    .returned data w3
  | .thrown w2 => .thrown w2
  | .fault f w2 => .fault f w2

/-! ## Concrete runtimes used to evaluate the code -/

/-- Class handle of the generic-failure type. -/
def genericClass : JClass := ⟨runtimeExceptionName⟩

/-- Class handle of the domain exception type. -/
def domainClass : JClass := ⟨activeMQExceptionName⟩

/-- Handle of the (int, String) constructor of the domain exception type. -/
def domainCtor : JMethodID := ⟨domainClass, "<init>", ctorSig⟩

/-- Modified UTF-8 encoding of one UTF-16 code unit, as the JNI specification
defines the output of `GetStringUTFChars`: U+0001..U+007F take one byte,
U+0000 and U+0080..U+07FF two bytes, everything above three bytes. -/
def modifiedUtf8Unit (c : Nat) : List Nat :=
  if 1 ≤ c ∧ c ≤ 0x7F then [c]
  else if c ≤ 0x7FF then [0xC0 + c / 64, 0x80 + c % 64]
  else [0xE0 + c / 4096, 0x80 + (c / 64) % 64, 0x80 + c % 64]

/-- Modified UTF-8 encoding of a sequence of UTF-16 code units. -/
def modifiedUtf8 (units : List Nat) : List Nat :=
  units.flatMap modifiedUtf8Unit

/-- A runtime in which every class and method is found, every instantiation
succeeds and strings are handed out as NUL-terminated modified UTF-8. -/
def jvm : JNIEnv where
  classes := fun _ => true
  methods := fun _ _ _ => true
  instantiates := fun _ _ _ => true
  utfChars := fun s => some (modifiedUtf8 s.units ++ [0])

/-- The runtime `jvm` without the domain exception type. -/
def jvmNoClass : JNIEnv :=
  { jvm with classes := fun n => n != activeMQExceptionName }

/-- The runtime `jvm` in which the domain exception type has no (int, String) constructor. -/
def jvmNoCtor : JNIEnv :=
  { jvm with methods := fun cls name sig => !(cls == domainClass && name == "<init>" && sig == ctorSig) }

/-- The runtime `jvm` in which the domain exception type cannot be instantiated. -/
def jvmNoInstance : JNIEnv :=
  { jvm with instantiates := fun cls _ _ => cls != domainClass }

/-- Initial state: nothing pending, nothing written, and a native heap that
supplies strings of up to `heap` bytes. -/
def World.init (heap : Nat) : World :=
  { pending := none, cerr := "", log := [], maxAlloc := heap }

/-! ## Text written to standard error -/

/-- The text ends with a newline (so it is not empty). -/
def EndsWithNewline (t : String) : Prop :=
  t.toList.getLast? = some '\n'

instance (t : String) : Decidable (EndsWithNewline t) := by
  unfold EndsWithNewline; infer_instance

/-- The text is exactly one line: it ends with a newline and holds no other newline. -/
def IsOneLine (t : String) : Prop :=
  EndsWithNewline t ∧ t.toList.count '\n' = 1

instance (t : String) : Decidable (IsOneLine t) := by
  unfold IsOneLine; infer_instance

/-- The text `m` occurs in the text `t`. -/
def Contains (t m : String) : Prop :=
  m.toList <:+: t.toList

/-! ## Shared lemmas -/

theorem classes_of_FindClass_some (env : JNIEnv) (n : String) (c : JClass)
    (h : env.FindClass n = some c) : env.classes n = true := by
  by_contra hne
  simp [JNIEnv.FindClass, hne] at h

theorem classes_of_FindClass_none (env : JNIEnv) (n : String)
    (h : env.FindClass n = none) : env.classes n = false := by
  by_contra hne
  simp [JNIEnv.FindClass, hne] at h

theorem methods_of_GetMethodID_some (env : JNIEnv) (c : JClass) (n sig : String) (i : JMethodID)
    (h : env.GetMethodID c n sig = some i) : env.methods c n sig = true := by
  by_contra hne
  simp [JNIEnv.GetMethodID, hne] at h

theorem methods_of_GetMethodID_none (env : JNIEnv) (c : JClass) (n sig : String)
    (h : env.GetMethodID c n sig = none) : env.methods c n sig = false := by
  by_contra hne
  simp [JNIEnv.GetMethodID, hne] at h

theorem toList_diagnostic (m : String) :
    ("Couldn't throw exception message:= " ++ m ++ "\n").toList =
      "Couldn't throw exception message:= ".toList ++ m.toList ++ ['\n'] := by
  simp [String.toList]

theorem diagnostic_endsWithNewline (m : String) :
    EndsWithNewline ("Couldn't throw exception message:= " ++ m ++ "\n") := by
  unfold EndsWithNewline
  rw [toList_diagnostic]
  exact List.getLast?_concat _

theorem diagnostic_contains (m : String) :
    Contains ("Couldn't throw exception message:= " ++ m ++ "\n") m := by
  unfold Contains
  rw [toList_diagnostic]
  exact ⟨_, _, rfl⟩

theorem diagnostic_isOneLine (m : String) (hn : '\n' ∉ m.toList) :
    IsOneLine ("Couldn't throw exception message:= " ++ m ++ "\n") := by
  refine ⟨diagnostic_endsWithNewline m, ?_⟩
  rw [toList_diagnostic]
  have h0 : "Couldn't throw exception message:= ".toList.count '\n' = 0 := by decide
  have h1 : m.toList.count '\n' = 0 := List.count_eq_zero.mpr hn
  rw [List.count_append, List.count_append, h0, h1]
  rfl

theorem throwRuntimeException_found (env : JNIEnv) (message : String) (w : World)
    (h : env.classes runtimeExceptionName = true) :
    throwRuntimeException env message w =
      .returned () { w with
        pending := some (.ofMessage genericClass message),
        log := w.log ++ [.created (.ofMessage genericClass message)] } := by
  simp [throwRuntimeException, JNIEnv.FindClass, JNIEnv.ThrowNew, h, genericClass]

theorem throwRuntimeException_missing (env : JNIEnv) (message : String) (w : World)
    (h : env.classes runtimeExceptionName = false) :
    throwRuntimeException env message w = .fault .nullClass w := by
  simp [throwRuntimeException, JNIEnv.FindClass, JNIEnv.ThrowNew, h]

theorem throwException_noClass (env : JNIEnv) (code : Int) (message : String) (w : World)
    (h : env.classes activeMQExceptionName = false) :
    throwException env code message w =
      throwRuntimeException env "Can't find Exception class"
        { w with cerr := w.cerr ++ "Couldn't throw exception message:= " ++ message ++ "\n" } := by
  simp [throwException, JNIEnv.FindClass, h]

theorem throwException_noCtor (env : JNIEnv) (code : Int) (message : String) (w : World)
    (hc : env.classes activeMQExceptionName = true)
    (hm : env.methods domainClass "<init>" ctorSig = false) :
    throwException env code message w =
      throwRuntimeException env "Can't find Constructor for Exception"
        { w with cerr := w.cerr ++ "Couldn't find the constructor ***" } := by
  simp [throwException, JNIEnv.FindClass, JNIEnv.GetMethodID, hc, domainClass] at hm ⊢
  simp [hm]

theorem throwException_found (env : JNIEnv) (code : Int) (message : String) (w : World)
    (hc : env.classes activeMQExceptionName = true)
    (hm : env.methods domainClass "<init>" ctorSig = true) :
    throwException env code message w =
      if env.instantiates domainClass domainCtor [.int code, .text message] then
        .returned () { w with
          pending := some (.ofCtor domainClass domainCtor [.int code, .text message]),
          log := w.log ++ [.created (.ofCtor domainClass domainCtor [.int code, .text message])] }
      else
        .fault .nullThrowable w := by
  simp only [domainClass, domainCtor] at hm ⊢
  simp only [throwException, JNIEnv.FindClass, JNIEnv.GetMethodID, hc, hm, JNIEnv.NewStringUTF,
    JNIEnv.NewObject, if_true]
  split <;> simp [JNIEnv.Throw]

theorem cstr_terminated (view rest : List Nat) (h0 : 0 ∉ view) :
    cstr (view ++ 0 :: rest) = view := by
  unfold cstr
  induction view with
  | nil => simp
  | cons b bs ih =>
    have hb : b ≠ 0 := fun hb => h0 (hb ▸ List.mem_cons_self _ _)
    have hbs : 0 ∉ bs := fun hm => h0 (List.mem_cons_of_mem _ hm)
    simp [List.takeWhile_cons, hb]
    simpa using ih hbs

theorem modifiedUtf8Unit_no_nul (c : Nat) : 0 ∉ modifiedUtf8Unit c := by
  unfold modifiedUtf8Unit
  split
  · simp; omega
  · split
    · simp; omega
    · simp; omega

theorem modifiedUtf8_no_nul (units : List Nat) : 0 ∉ modifiedUtf8 units := by
  unfold modifiedUtf8
  simp only [List.mem_flatMap, not_exists, not_and]
  intro c _
  exact modifiedUtf8Unit_no_nul c

theorem convertJavaString_copied (env : JNIEnv) (jstr : JString) (w : World) (mem : List Nat)
    (hv : env.utfChars jstr = some mem) (ha : (cstr mem).length ≤ w.maxAlloc) :
    convertJavaString env jstr w =
      .returned (cstr mem) { w with
        log := w.log ++
          [.acquired jstr mem, .copied (cstr mem).length, .released jstr (some mem)] } := by
  simp [convertJavaString, JNIEnv.GetStringUTFChars, hv, stdString, ha,
    JNIEnv.ReleaseStringUTFChars]

theorem convertJavaString_bad_alloc (env : JNIEnv) (jstr : JString) (w : World) (mem : List Nat)
    (hv : env.utfChars jstr = some mem) (ha : w.maxAlloc < (cstr mem).length) :
    convertJavaString env jstr w =
      .thrown { w with log := w.log ++ [.acquired jstr mem] } := by
  simp [convertJavaString, JNIEnv.GetStringUTFChars, hv, stdString, Nat.not_le.mpr ha]

theorem convertJavaString_jvm (s : JString) (w : World)
    (ha : (modifiedUtf8 s.units).length ≤ w.maxAlloc) :
    convertJavaString jvm s w =
      .returned (modifiedUtf8 s.units) { w with
        log := w.log ++ [.acquired s (modifiedUtf8 s.units ++ [0]),
          .copied (modifiedUtf8 s.units).length,
          .released s (some (modifiedUtf8 s.units ++ [0]))] } := by
  have hc : cstr (modifiedUtf8 s.units ++ [0]) = modifiedUtf8 s.units :=
    cstr_terminated _ [] (modifiedUtf8_no_nul s.units)
  have hr := convertJavaString_copied jvm s w (modifiedUtf8 s.units ++ [0]) rfl
    (by rw [hc]; exact ha)
  rw [hc] at hr
  exact hr

theorem throwRuntimeException_frame (env : JNIEnv) (m : String) (w : World) :
    ∃ p l, (throwRuntimeException env m w).world = { w with pending := p, log := l } := by
  cases h : env.classes runtimeExceptionName
  · rw [throwRuntimeException_missing env m w h]
    exact ⟨w.pending, w.log, rfl⟩
  · rw [throwRuntimeException_found env m w h]
    exact ⟨_, _, rfl⟩

/-! ## throwRuntimeException -/

/-- C1: when the generic-failure type `java/lang/RuntimeException` can be looked
up, `throwRuntimeException env m` returns, and the context then has a pending
exception whose runtime type is the generic-failure type and whose message is `m`. -/
theorem throwRuntimeException_pending (env : JNIEnv) (m : String) (w : World)
    (h : env.FindClass runtimeExceptionName = some genericClass) :
    ∃ w' ex, throwRuntimeException env m w = .returned () w' ∧ w'.pending = some ex ∧
      ex.type = genericClass ∧ ex.message = some m := by
  have hc : env.classes runtimeExceptionName = true := by
    by_contra hne
    simp [JNIEnv.FindClass, hne] at h
  exact ⟨_, _, throwRuntimeException_found env m w hc, rfl, rfl, rfl⟩

/-- Witness of C1 in the runtime `jvm`, message "disk full". -/
theorem throwRuntimeException_pending_witness :
    jvm.FindClass runtimeExceptionName = some genericClass ∧
    ∃ w' ex, throwRuntimeException jvm "disk full" (World.init 64) = .returned () w' ∧
      w'.pending = some ex ∧ ex.type = genericClass ∧ ex.message = some "disk full" :=
  ⟨rfl, throwRuntimeException_pending jvm "disk full" (World.init 64) rfl⟩

/-! ## throwException : the domain exception is raised -/

/-- C2, as stated, fails: in the runtime `jvmNoInstance` the domain exception
type and its (int, String) constructor are both found, yet
`throwException env 503 "disk full"` passes the `NULL` result of `NewObject`
to `Throw` and no domain exception becomes pending. -/
theorem throwException_domain_counterexample :
    jvmNoInstance.FindClass activeMQExceptionName = some domainClass ∧
    jvmNoInstance.GetMethodID domainClass "<init>" ctorSig = some domainCtor ∧
    throwException jvmNoInstance 503 "disk full" (World.init 64) =
      .fault .nullThrowable (World.init 64) ∧
    ¬ ∃ w' ex, throwException jvmNoInstance 503 "disk full" (World.init 64) = .returned () w' ∧
      w'.pending = some ex ∧ ex.type = domainClass := by
  have h : throwException jvmNoInstance 503 "disk full" (World.init 64) =
      .fault .nullThrowable (World.init 64) := by decide
  refine ⟨by decide, by decide, h, ?_⟩
  rintro ⟨w', ex, hret, -⟩
  rw [h] at hret
  cases hret

/-- C2, amended: when the domain exception type and its (int, String)
constructor are both found and the runtime instantiates the exception,
`throwException env code m` returns with a pending exception that is the
instance of the domain type constructed with exactly `(code, m)`: its code is
`code` and its message is `m`. -/
theorem throwException_domain (env : JNIEnv) (code : Int) (m : String) (w : World)
    (hc : env.FindClass activeMQExceptionName = some domainClass)
    (hm : env.GetMethodID domainClass "<init>" ctorSig = some domainCtor)
    (hi : env.instantiates domainClass domainCtor [.int code, .text m] = true) :
    ∃ w' ex, throwException env code m w = .returned () w' ∧ w'.pending = some ex ∧
      ex = .ofCtor domainClass domainCtor [.int code, .text m] ∧
      ex.type = domainClass ∧ ex.code = some code ∧ ex.message = some m := by
  have hc' : env.classes activeMQExceptionName = true := by
    by_contra hne
    simp [JNIEnv.FindClass, hne] at hc
  have hm' : env.methods domainClass "<init>" ctorSig = true := by
    by_contra hne
    simp [JNIEnv.GetMethodID, hne] at hm
  refine ⟨{ w with
      pending := some (.ofCtor domainClass domainCtor [.int code, .text m]),
      log := w.log ++ [.created (.ofCtor domainClass domainCtor [.int code, .text m])] },
    .ofCtor domainClass domainCtor [.int code, .text m], ?_, rfl, rfl, rfl, ?_, ?_⟩
  · rw [throwException_found env code m w hc' hm', if_pos hi]
  · simp [JThrowable.code]
  · simp [JThrowable.message]

/-- Witness of the amended C2: code 503 and message "disk full" in the runtime `jvm`. -/
theorem throwException_domain_witness :
    jvm.FindClass activeMQExceptionName = some domainClass ∧
    jvm.GetMethodID domainClass "<init>" ctorSig = some domainCtor ∧
    jvm.instantiates domainClass domainCtor [.int 503, .text "disk full"] = true ∧
    ∃ w' ex, throwException jvm 503 "disk full" (World.init 64) = .returned () w' ∧
      w'.pending = some ex ∧
      ex = .ofCtor domainClass domainCtor [.int 503, .text "disk full"] ∧
      ex.type = domainClass ∧ ex.code = some 503 ∧ ex.message = some "disk full" :=
  ⟨rfl, rfl, rfl, throwException_domain jvm 503 "disk full" (World.init 64) rfl rfl rfl⟩

/-- C8, evaluated where it fails: in the runtime `jvmNoInstance` the
generic-failure type exists and the domain type and its constructor are found,
but the instantiation yields `NULL`; `throwException` hands that `NULL` to
`Throw` without the fallback its two lookup guards have, and no exception is
pending afterwards. -/
theorem throwException_instantiation_failure :
    jvmNoInstance.FindClass runtimeExceptionName = some genericClass ∧
    jvmNoInstance.FindClass activeMQExceptionName = some domainClass ∧
    jvmNoInstance.GetMethodID domainClass "<init>" ctorSig = some domainCtor ∧
    jvmNoInstance.NewObject domainClass domainCtor [.int 503, .text "disk full"] (World.init 64) =
      (none, World.init 64) ∧
    throwException jvmNoInstance 503 "disk full" (World.init 64) =
      .fault .nullThrowable (World.init 64) ∧
    (throwException jvmNoInstance 503 "disk full" (World.init 64)).world.pending = none := by
  decide

/-! ## throwException : the lookups fail -/

/-- C3, as stated, fails: with the domain exception type absent and the message
"disk\nfull", the text `throwException` writes to standard error is two lines,
not exactly one. -/
theorem throwException_typeNotFound_counterexample :
    jvmNoClass.FindClass activeMQExceptionName = none ∧
    jvmNoClass.FindClass runtimeExceptionName = some genericClass ∧
    (throwException jvmNoClass 503 "disk\nfull" (World.init 64)).world.cerr =
      "Couldn't throw exception message:= disk\nfull\n" ∧
    (throwException jvmNoClass 503 "disk\nfull" (World.init 64)).world.cerr.toList.count '\n' = 2 ∧
    ¬ IsOneLine (throwException jvmNoClass 503 "disk\nfull" (World.init 64)).world.cerr := by
  decide

/-- C3, amended: when the domain exception type is absent from the registry and
the generic-failure type is present, `throwException env code m` returns with a
generic-failure exception pending, creates and raises no domain exception, and
appends to standard error exactly the text
`"Couldn't throw exception message:= " ++ m ++ "\n"`, which contains `m` and
ends with a newline; that text is exactly one line whenever `m` holds no
newline character. -/
theorem throwException_typeNotFound (env : JNIEnv) (code : Int) (m : String) (w : World)
    (hc : env.FindClass activeMQExceptionName = none)
    (hg : env.FindClass runtimeExceptionName = some genericClass) :
    ∃ w' ex t, throwException env code m w = .returned () w' ∧
      w'.pending = some ex ∧ ex.type = genericClass ∧ ex.type ≠ domainClass ∧
      w'.log = w.log ++ [.created ex] ∧
      t = "Couldn't throw exception message:= " ++ m ++ "\n" ∧
      w'.cerr = w.cerr ++ t ∧ Contains t m ∧ EndsWithNewline t ∧
      ('\n' ∉ m.toList → IsOneLine t) := by
  refine ⟨{ w with
      cerr := w.cerr ++ "Couldn't throw exception message:= " ++ m ++ "\n",
      pending := some (.ofMessage genericClass "Can't find Exception class"),
      log := w.log ++ [.created (.ofMessage genericClass "Can't find Exception class")] },
    .ofMessage genericClass "Can't find Exception class", _, ?_, rfl, rfl, by decide,
    rfl, rfl, ?_, diagnostic_contains m, diagnostic_endsWithNewline m, diagnostic_isOneLine m⟩
  · rw [throwException_noClass env code m w (classes_of_FindClass_none env _ hc),
      throwRuntimeException_found env _ _ (classes_of_FindClass_some env _ _ hg)]
  · simp [String.append_assoc]

/-- Witness of the amended C3: code 503 and message "disk full" in the runtime `jvmNoClass`. -/
theorem throwException_typeNotFound_witness :
    jvmNoClass.FindClass activeMQExceptionName = none ∧
    jvmNoClass.FindClass runtimeExceptionName = some genericClass ∧
    '\n' ∉ "disk full".toList ∧
    ∃ w' ex t, throwException jvmNoClass 503 "disk full" (World.init 64) = .returned () w' ∧
      w'.pending = some ex ∧ ex.type = genericClass ∧ ex.type ≠ domainClass ∧
      w'.log = (World.init 64).log ++ [.created ex] ∧
      t = "Couldn't throw exception message:= " ++ "disk full" ++ "\n" ∧
      w'.cerr = (World.init 64).cerr ++ t ∧ Contains t "disk full" ∧ EndsWithNewline t ∧
      ('\n' ∉ "disk full".toList → IsOneLine t) :=
  ⟨by decide, by decide, by decide,
    throwException_typeNotFound jvmNoClass 503 "disk full" (World.init 64) (by decide) (by decide)⟩

/-- C4: when the domain exception type is found, its (int, String) constructor
is not, and the generic-failure type is present, `throwException env code m`
returns with a pending generic-failure exception carrying the fixed message
"Can't find Constructor for Exception"; the only object created is that
exception, so no instance of the domain type is created or raised; and the
message differs from the one every type-not-found run leaves pending. -/
theorem throwException_ctorNotFound (env : JNIEnv) (code : Int) (m : String) (w : World)
    (hc : env.FindClass activeMQExceptionName = some domainClass)
    (hm : env.GetMethodID domainClass "<init>" ctorSig = none)
    (hg : env.FindClass runtimeExceptionName = some genericClass) :
    ∃ w' ex, throwException env code m w = .returned () w' ∧
      w'.pending = some ex ∧ ex.type = genericClass ∧ ex.type ≠ domainClass ∧
      ex.message = some "Can't find Constructor for Exception" ∧
      w'.log = w.log ++ [.created ex] ∧
      ∀ (env2 : JNIEnv) (code2 : Int) (m2 : String) (w2 : World),
        env2.FindClass activeMQExceptionName = none →
        env2.FindClass runtimeExceptionName = some genericClass →
        ∃ ex2, (throwException env2 code2 m2 w2).world.pending = some ex2 ∧
          ex2.message = some "Can't find Exception class" ∧ ex2.message ≠ ex.message := by
  refine ⟨{ w with
      cerr := w.cerr ++ "Couldn't find the constructor ***",
      pending := some (.ofMessage genericClass "Can't find Constructor for Exception"),
      log := w.log ++ [.created (.ofMessage genericClass "Can't find Constructor for Exception")] },
    .ofMessage genericClass "Can't find Constructor for Exception", ?_, rfl, rfl,
    by decide, rfl, rfl, ?_⟩
  · rw [throwException_noCtor env code m w (classes_of_FindClass_some env _ _ hc)
        (methods_of_GetMethodID_none env _ _ _ hm),
      throwRuntimeException_found env _ _ (classes_of_FindClass_some env _ _ hg)]
  · intro env2 code2 m2 w2 hc2 hg2
    refine ⟨.ofMessage genericClass "Can't find Exception class", ?_, rfl, by decide⟩
    rw [throwException_noClass env2 code2 m2 w2 (classes_of_FindClass_none env2 _ hc2),
      throwRuntimeException_found env2 _ _ (classes_of_FindClass_some env2 _ _ hg2)]
    rfl

/-- Witness of C4: code 503 and message "disk full" in the runtime `jvmNoCtor`. -/
theorem throwException_ctorNotFound_witness :
    jvmNoCtor.FindClass activeMQExceptionName = some domainClass ∧
    jvmNoCtor.GetMethodID domainClass "<init>" ctorSig = none ∧
    jvmNoCtor.FindClass runtimeExceptionName = some genericClass ∧
    ∃ w' ex, throwException jvmNoCtor 503 "disk full" (World.init 64) = .returned () w' ∧
      w'.pending = some ex ∧ ex.type = genericClass ∧ ex.type ≠ domainClass ∧
      ex.message = some "Can't find Constructor for Exception" ∧
      w'.log = (World.init 64).log ++ [.created ex] ∧
      ∀ (env2 : JNIEnv) (code2 : Int) (m2 : String) (w2 : World),
        env2.FindClass activeMQExceptionName = none →
        env2.FindClass runtimeExceptionName = some genericClass →
        ∃ ex2, (throwException env2 code2 m2 w2).world.pending = some ex2 ∧
          ex2.message = some "Can't find Exception class" ∧ ex2.message ≠ ex.message :=
  ⟨by decide, by decide, by decide,
    throwException_ctorNotFound jvmNoCtor 503 "disk full" (World.init 64)
      (by decide) (by decide) (by decide)⟩

/-- C5, evaluated where it fails: with the domain exception type found and its
constructor missing, the whole text `throwException` writes to standard error
is "Couldn't find the constructor ***", which holds no newline and so is not a
line; the type-not-found path, run on the same inputs, does write one line. -/
theorem throwException_ctorNotFound_diagnostic :
    jvmNoCtor.FindClass activeMQExceptionName = some domainClass ∧
    jvmNoCtor.GetMethodID domainClass "<init>" ctorSig = none ∧
    (throwException jvmNoCtor 503 "disk full" (World.init 64)).world.cerr =
      "Couldn't find the constructor ***" ∧
    ¬ EndsWithNewline (throwException jvmNoCtor 503 "disk full" (World.init 64)).world.cerr ∧
    (throwException jvmNoCtor 503 "disk full" (World.init 64)).world.cerr.toList.count '\n' = 0 ∧
    (throwException jvmNoClass 503 "disk full" (World.init 64)).world.cerr =
      "Couldn't throw exception message:= disk full\n" ∧
    IsOneLine (throwException jvmNoClass 503 "disk full" (World.init 64)).world.cerr := by
  decide

/-! ## convertJavaString -/

/-- A Java string of forty letters `a`. -/
def fortyLetters : JString := ⟨List.replicate 40 97⟩

/-- The Java string "Hé中" followed by U+0000: one-, two- and three-byte characters
and the two-byte form of the null character. -/
def mixedText : JString := ⟨[0x48, 0xE9, 0x4E2D, 0]⟩

/-- C6, as stated, fails: the runtime hands out the encoded view of a string of
forty letters, but the native heap cannot supply the copy, so
`convertJavaString` is left through `std::bad_alloc` and returns no string. -/
theorem convertJavaString_contents_counterexample :
    jvm.utfChars fortyLetters = some (List.replicate 40 97 ++ [0]) ∧
    convertJavaString jvm fortyLetters (World.init 15) =
      .thrown { World.init 15 with
        log := [.acquired fortyLetters (List.replicate 40 97 ++ [0])] } ∧
    ¬ ∃ data w', convertJavaString jvm fortyLetters (World.init 15) = .returned data w' := by
  have h : convertJavaString jvm fortyLetters (World.init 15) =
      .thrown { World.init 15 with
        log := [.acquired fortyLetters (List.replicate 40 97 ++ [0])] } := by decide
  refine ⟨by decide, h, ?_⟩
  rintro ⟨data, w', hret⟩
  rw [h] at hret
  cases hret

/-- C6, amended: when the runtime hands out an encoded view for `s` (a buffer
holding the characters `view`, none of them NUL, then the terminating NUL) and
the copy into the native string succeeds, `convertJavaString env s` returns a
native string whose contents are exactly `view`: same length, same bytes in
the same order. -/
theorem convertJavaString_contents (env : JNIEnv) (s : JString) (w : World)
    (view rest : List Nat)
    (hv : env.utfChars s = some (view ++ 0 :: rest))
    (h0 : 0 ∉ view)
    (ha : view.length ≤ w.maxAlloc) :
    ∃ data w', convertJavaString env s w = .returned data w' ∧
      data = view ∧ data.length = view.length := by
  have hc := cstr_terminated view rest h0
  have hr := convertJavaString_copied env s w _ hv (by rw [hc]; exact ha)
  rw [hc] at hr
  exact ⟨view, _, hr, rfl, rfl⟩

/-- Witness of the amended C6: the multi-byte text `mixedText`, whose modified
UTF-8 view is the eight bytes 48, C3 A9, E4 B8 AD, C0 80. -/
theorem convertJavaString_contents_witness :
    jvm.utfChars mixedText = some ([72, 195, 169, 228, 184, 173, 192, 128] ++ 0 :: []) ∧
    0 ∉ [72, 195, 169, 228, 184, 173, 192, 128] ∧
    [72, 195, 169, 228, 184, 173, 192, 128].length ≤ (World.init 64).maxAlloc ∧
    ∃ data w', convertJavaString jvm mixedText (World.init 64) = .returned data w' ∧
      data = [72, 195, 169, 228, 184, 173, 192, 128] ∧
      data.length = [72, 195, 169, 228, 184, 173, 192, 128].length :=
  ⟨by decide, by decide, by decide,
    convertJavaString_contents jvm mixedText (World.init 64)
      [72, 195, 169, 228, 184, 173, 192, 128] [] (by decide) (by decide) (by decide)⟩

/-- C7, evaluated where it fails: the runtime hands out the view of a string of
forty letters and the native heap cannot supply the copy, so the `std::string`
constructor throws; `convertJavaString` is left with the view acquired and
released zero times.  With enough heap the same call acquires the view, copies
it, releases that same view once and returns. -/
theorem convertJavaString_leaks_view :
    jvm.utfChars fortyLetters = some (List.replicate 40 97 ++ [0]) ∧
    convertJavaString jvm fortyLetters (World.init 15) =
      .thrown { World.init 15 with
        log := [.acquired fortyLetters (List.replicate 40 97 ++ [0])] } ∧
    ((convertJavaString jvm fortyLetters (World.init 15)).world.log.filter fun e =>
      match e with
      | .released _ _ => true
      | _ => false) = [] ∧
    convertJavaString jvm fortyLetters (World.init 64) =
      .returned (List.replicate 40 97) { World.init 64 with
        log := [.acquired fortyLetters (List.replicate 40 97 ++ [0]), .copied 40,
          .released fortyLetters (some (List.replicate 40 97 ++ [0]))] } := by
  decide

/-! ## Frame and information flow -/

/-- C9: `throwRuntimeException` writes nothing to standard error for any
message, and `throwException` writes nothing to standard error whenever the
domain exception type and its (int, String) constructor are both found; in
these calls nothing of the state changes but the pending-exception slot (and
the log entry of the exception object made for it). -/
theorem stderr_only_on_lookup_failure (env : JNIEnv) (w : World) :
    (∀ m : String,
      (throwRuntimeException env m w).world.cerr = w.cerr ∧
      ∃ p l, (throwRuntimeException env m w).world = { w with pending := p, log := l }) ∧
    (env.FindClass activeMQExceptionName = some domainClass →
      env.GetMethodID domainClass "<init>" ctorSig = some domainCtor →
      ∀ (code : Int) (m : String),
        (throwException env code m w).world.cerr = w.cerr ∧
        ∃ p l, (throwException env code m w).world = { w with pending := p, log := l }) := by
  constructor
  · intro m
    obtain ⟨p, l, h⟩ := throwRuntimeException_frame env m w
    exact ⟨by rw [h], p, l, h⟩
  · intro hc hm code m
    rw [throwException_found env code m w (classes_of_FindClass_some env _ _ hc)
      (methods_of_GetMethodID_some env _ _ _ _ hm)]
    split
    · exact ⟨rfl, _, _, rfl⟩
    · exact ⟨rfl, w.pending, w.log, rfl⟩

/-- Witness of C9: the runtime `jvm`, code 503, message "disk full", starting
from a standard error that already holds a line. -/
theorem stderr_only_on_lookup_failure_witness :
    jvm.FindClass activeMQExceptionName = some domainClass ∧
    jvm.GetMethodID domainClass "<init>" ctorSig = some domainCtor ∧
    (throwException jvm 503 "disk full" { World.init 64 with cerr := "boot\n" }).world.cerr =
      "boot\n" ∧
    (throwRuntimeException jvm "disk full" { World.init 64 with cerr := "boot\n" }).world.cerr =
      "boot\n" :=
  ⟨by decide, by decide,
    ((stderr_only_on_lookup_failure jvm { World.init 64 with cerr := "boot\n" }).2
      (by decide) (by decide) 503 "disk full").1,
    ((stderr_only_on_lookup_failure jvm { World.init 64 with cerr := "boot\n" }).1 "disk full").1⟩

/-- C10: when the domain exception type is found and its constructor is not,
any two runs of `throwException` from the same state end in the same outcome
(same pending exception, same text on standard error) whatever their codes and
messages; when the domain exception type is not found, the pending exception is
the same whatever the codes and messages, and two runs with the same message
end in the same outcome whatever their codes. -/
theorem throwException_inputs_lost (env : JNIEnv) (w : World) :
    (env.FindClass activeMQExceptionName = some domainClass →
      env.GetMethodID domainClass "<init>" ctorSig = none →
      ∀ (code1 code2 : Int) (m1 m2 : String),
        throwException env code1 m1 w = throwException env code2 m2 w) ∧
    (env.FindClass activeMQExceptionName = none →
      (∀ (code1 code2 : Int) (m1 m2 : String),
        (throwException env code1 m1 w).world.pending =
          (throwException env code2 m2 w).world.pending) ∧
      (∀ (code1 code2 : Int) (m : String),
        throwException env code1 m w = throwException env code2 m w)) := by
  constructor
  · intro hc hm code1 code2 m1 m2
    rw [throwException_noCtor env code1 m1 w (classes_of_FindClass_some env _ _ hc)
        (methods_of_GetMethodID_none env _ _ _ hm),
      throwException_noCtor env code2 m2 w (classes_of_FindClass_some env _ _ hc)
        (methods_of_GetMethodID_none env _ _ _ hm)]
  · intro hc
    have hc' := classes_of_FindClass_none env _ hc
    constructor
    · intro code1 code2 m1 m2
      rw [throwException_noClass env code1 m1 w hc', throwException_noClass env code2 m2 w hc']
      cases hg : env.classes runtimeExceptionName
      · rw [throwRuntimeException_missing env _ _ hg, throwRuntimeException_missing env _ _ hg]
        rfl
      · rw [throwRuntimeException_found env _ _ hg, throwRuntimeException_found env _ _ hg]
        rfl
    · intro code1 code2 m
      rw [throwException_noClass env code1 m w hc', throwException_noClass env code2 m w hc']

/-- Witness of C10: the inputs (503, "disk full") and (7, "no space") in the
runtimes `jvmNoCtor` and `jvmNoClass`. -/
theorem throwException_inputs_lost_witness :
    jvmNoCtor.FindClass activeMQExceptionName = some domainClass ∧
    jvmNoCtor.GetMethodID domainClass "<init>" ctorSig = none ∧
    throwException jvmNoCtor 503 "disk full" (World.init 64) =
      throwException jvmNoCtor 7 "no space" (World.init 64) ∧
    jvmNoClass.FindClass activeMQExceptionName = none ∧
    (throwException jvmNoClass 503 "disk full" (World.init 64)).world.pending =
      (throwException jvmNoClass 7 "no space" (World.init 64)).world.pending ∧
    throwException jvmNoClass 503 "disk full" (World.init 64) =
      throwException jvmNoClass 7 "disk full" (World.init 64) :=
  ⟨by decide, by decide,
    (throwException_inputs_lost jvmNoCtor (World.init 64)).1 (by decide) (by decide)
      503 7 "disk full" "no space",
    by decide,
    ((throwException_inputs_lost jvmNoClass (World.init 64)).2 (by decide)).1
      503 7 "disk full" "no space",
    ((throwException_inputs_lost jvmNoClass (World.init 64)).2 (by decide)).2 503 7 "disk full"⟩

end JavaUtilities
